import Mathlib

/-!
Verification of the film-mania webhook-driven subscription/payment
reconciliation subsystem and the admin funding service, as a shallow
embedding of the TypeScript source:

* `apps/api/src/services/stripe.service.ts` (status mappings, sync upserts)
* the shared-library variant of the Stripe service (DAO-based)
* `apps/api/src/routes/webhooks/webhook_router.ts` (webhook handler)
* `apps/api/src/services/admin_service.ts` (funding)
* `apps/api/src/dao/subscription_dao.ts`, the Sequelize models

JavaScript `Record<string,string>` lookups with a `|| default` fallback are
embedded as total Lean matches with a default arm; JS falsiness of optional
strings / numbers ("" and 0 are falsy) is embedded explicitly where the
source relies on it.
-/

namespace FilmMania

/-- JS truthiness of an optional string: `undefined`/`null` and `""` are
falsy (used for `!sig`, `!userId`, `x || null`). -/
def jsTruthyStr : Option String → Bool
  | none => false
  | some s => s ≠ ""

/-- `x || null` on an optional string: the empty string collapses to null. -/
def jsStrOrNull (x : Option String) : Option String :=
  match x with
  | none => none
  | some s => if s = "" then none else some s

/-- JS truthiness of an optional epoch number: `undefined`/`null` and `0`
are falsy (used by the `cancel_at ? … : …` chains in the sync code). -/
def jsTruthyNum : Option Int → Bool
  | none => false
  | some n => n ≠ 0

/-! ## Status mappings (stripe.service.ts) -/

/-- `mapStripeStatus` from `stripe.service.ts` (identical table in the
shared-library variant): the `Record` lookup with `|| 'inactive'` default. -/
def mapStripeStatus (status : String) : String :=
  match status with
  | "active" => "active"
  | "trialing" => "trialing"
  | "past_due" => "past_due"
  | "canceled" => "cancelled"
  | "unpaid" => "inactive"
  | "incomplete" => "inactive"
  | "incomplete_expired" => "inactive"
  | _ => "inactive"

/-- `mapPaymentStatus` from `apps/api/src/services/stripe.service.ts`
(variant A): `canceled` maps to `failed`, `processing` to `pending`,
default `pending`. -/
def mapPaymentStatus (status : String) : String :=
  match status with
  | "succeeded" => "succeeded"
  | "pending" => "pending"
  | "failed" => "failed"
  | "canceled" => "failed"
  | "processing" => "pending"
  | _ => "pending"

/-- `mapPaymentStatus` from the DAO-based Stripe service variant
(variant B): maps into the shared `PaymentStatus` enum, whose values are
the strings below; `canceled` and `processing` stay distinct statuses. -/
def mapPaymentStatusShared (status : String) : String :=
  match status with
  | "succeeded" => "succeeded"
  | "pending" => "pending"
  | "failed" => "failed"
  | "canceled" => "canceled"
  | "processing" => "processing"
  | _ => "pending"

/-- `getPlanType`: billing interval of the first line item;
`'year'` gives `'yearly'`, anything else (including a missing item,
price, or recurring block) gives `'monthly'`. -/
def getPlanType (firstItemInterval : Option String) : String :=
  if firstItemInterval = some "year" then "yearly" else "monthly"

/-! ## Vendor objects (the fields read by the sync code) -/

/-- The fields of a `Stripe.Subscription` object that
`syncSubscriptionToDatabase` reads.  Epoch fields are seconds;
`firstItemInterval` stands for `items.data[0]?.price?.recurring?.interval`
and `metadataUserId` for `metadata?.userId`. -/
structure StripeSubscription where
  id : String
  status : String
  created : Int
  cancel_at : Option Int
  current_period_start : Option Int
  current_period_end : Option Int
  canceled_at : Option Int
  firstItemInterval : Option String
  metadataUserId : Option String
deriving DecidableEq, Repr

/-- The fields of a `Stripe.PaymentIntent` object that
`syncPaymentToDatabase` reads.  `amount` is the vendor minor-unit
integer. -/
structure StripePaymentIntent where
  id : String
  amount : Int
  currency : String
  status : String
  payment_method_types : List String
  metadataUserId : Option String
deriving DecidableEq, Repr

/-! ## Store rows (Sequelize models)

Timestamps inside rows are kept abstract in the date type `δ`: the
reconciliation path stores epoch milliseconds (`new Date(sec * 1000)`),
the funding path stores calendar dates (`new Date()` + `setMonth`). -/

/-- A row of the `subscriptions` table (subscription.model.ts). -/
structure SubRow (δ : Type) where
  id : String
  user_id : String
  stripe_subscription_id : Option String
  status : String
  plan_type : String
  start_date : Option δ
  end_date : Option δ
  current_period_start : Option δ
  current_period_end : Option δ
  funded_by_admin : Bool
  cancelled_at : Option δ
  created_at : Int
deriving DecidableEq

/-- A row of the `payments` table (payment.model.ts). -/
structure PayRow where
  id : String
  user_id : String
  subscription_id : Option String
  stripe_payment_id : Option String
  stripe_payment_intent_id : Option String
  amount : ℚ
  currency : String
  status : String
  payment_method : Option String
deriving DecidableEq

/-- Replace the first element satisfying `p` by its image under `f`
(Sequelize `findOne` + in-place `update` on the found row). -/
def updateFirstBy (p : α → Bool) (f : α → α) : List α → List α
  | [] => []
  | r :: rs => if p r then f r :: rs else r :: updateFirstBy p f rs

/-! ## syncSubscriptionToDatabase (stripe.service.ts, lines 127-164) -/

/-- The `subscriptionData` object built by `syncSubscriptionToDatabase`.
The `?:` chains on `cancel_at` / `current_period_*` / `canceled_at` use JS
truthiness, so an epoch value of `0` falls through like `null`. -/
structure SubData where
  user_id : String
  stripe_subscription_id : String
  status : String
  plan_type : String
  start_date : Int
  end_date : Option Int
  current_period_start : Option Int
  current_period_end : Option Int
  cancelled_at : Option Int
deriving DecidableEq

/-- Build `subscriptionData` from the vendor subscription (dates as epoch
milliseconds, i.e. `new Date(x * 1000)`). -/
def subscriptionData (ev : StripeSubscription) (userId : String) : SubData :=
  { user_id := userId
    stripe_subscription_id := ev.id
    status := mapStripeStatus ev.status
    plan_type := getPlanType ev.firstItemInterval
    start_date := ev.created * 1000
    end_date :=
      if jsTruthyNum ev.cancel_at then ev.cancel_at.map (· * 1000)
      else if jsTruthyNum ev.current_period_end then
        ev.current_period_end.map (· * 1000)
      else none
    current_period_start :=
      if jsTruthyNum ev.current_period_start then
        ev.current_period_start.map (· * 1000)
      else none
    current_period_end :=
      if jsTruthyNum ev.current_period_end then
        ev.current_period_end.map (· * 1000)
      else none
    cancelled_at :=
      if jsTruthyNum ev.canceled_at then ev.canceled_at.map (· * 1000)
      else none }

/-- `subscription.update(subscriptionData)`: overwrite every field present
in `subscriptionData`, keeping `id`, `funded_by_admin` and
`created_at`. -/
def SubRow.applyData (r : SubRow Int) (d : SubData) : SubRow Int :=
  { r with
    user_id := d.user_id
    stripe_subscription_id := some d.stripe_subscription_id
    status := d.status
    plan_type := d.plan_type
    start_date := some d.start_date
    end_date := d.end_date
    current_period_start := d.current_period_start
    current_period_end := d.current_period_end
    cancelled_at := d.cancelled_at }

/-- `SubscriptionModel.create(subscriptionData)`: a fresh row; the
`funded_by_admin` column defaults to `false`, the primary key and
`created_at` timestamp are generated by the store. -/
def createSub (newId : String) (createdAt : Int) (d : SubData) : SubRow Int :=
  { id := newId
    user_id := d.user_id
    stripe_subscription_id := some d.stripe_subscription_id
    status := d.status
    plan_type := d.plan_type
    start_date := some d.start_date
    end_date := d.end_date
    current_period_start := d.current_period_start
    current_period_end := d.current_period_end
    funded_by_admin := false
    cancelled_at := d.cancelled_at
    created_at := createdAt }

/-- `findOne({ where: { stripe_subscription_id } })`. -/
def findByStripeId (sid : String) (subs : List (SubRow Int)) : Option (SubRow Int) :=
  subs.find? (fun r => r.stripe_subscription_id == some sid)

/-- `syncSubscriptionToDatabase`: look up by vendor subscription id;
update the found row with the full `subscriptionData`, otherwise create a
new row.  `newId`/`createdAt` are the store-generated primary key and
timestamp of the create branch. -/
def syncSubscriptionToDatabase (ev : StripeSubscription) (userId : String)
    (newId : String) (createdAt : Int) (subs : List (SubRow Int)) : List (SubRow Int) :=
  let d := subscriptionData ev userId
  match findByStripeId ev.id subs with
  | some _ =>
      updateFirstBy (fun r => r.stripe_subscription_id == some ev.id)
        (fun r => r.applyData d) subs
  | none => subs ++ [createSub newId createdAt d]

/-- Number of rows carrying a given vendor subscription id. -/
def countByStripeId (sid : String) (subs : List (SubRow Int)) : Nat :=
  (subs.filter (fun r => r.stripe_subscription_id == some sid)).length

/-! ## syncPaymentToDatabase (stripe.service.ts, lines 193-220) -/

/-- The `paymentData` object built by `syncPaymentToDatabase`;
`subscription_id` is `subscriptionId || null` and `payment_method` is
`payment_method_types[0] || null`. -/
structure PayData where
  user_id : String
  subscription_id : Option String
  stripe_payment_id : String
  stripe_payment_intent_id : String
  amount : ℚ
  currency : String
  status : String
  payment_method : Option String
deriving DecidableEq

/-- Build `paymentData` from the vendor payment intent: the minor-unit
amount is divided by 100 and the status mapped through
`mapPaymentStatus`. -/
def paymentData (pi : StripePaymentIntent) (userId : String)
    (subscriptionId : Option String) : PayData :=
  { user_id := userId
    subscription_id := jsStrOrNull subscriptionId
    stripe_payment_id := pi.id
    stripe_payment_intent_id := pi.id
    amount := (pi.amount : ℚ) / 100
    currency := pi.currency
    status := mapPaymentStatus pi.status
    payment_method := jsStrOrNull pi.payment_method_types.head? }

/-- `payment.update(paymentData)`: overwrite every field present in
`paymentData`, keeping the primary key. -/
def PayRow.applyData (r : PayRow) (d : PayData) : PayRow :=
  { r with
    user_id := d.user_id
    subscription_id := d.subscription_id
    stripe_payment_id := some d.stripe_payment_id
    stripe_payment_intent_id := some d.stripe_payment_intent_id
    amount := d.amount
    currency := d.currency
    status := d.status
    payment_method := d.payment_method }

/-- `PaymentModel.create(paymentData)`: a fresh row with a generated
primary key. -/
def createPay (newId : String) (d : PayData) : PayRow :=
  { id := newId
    user_id := d.user_id
    subscription_id := d.subscription_id
    stripe_payment_id := some d.stripe_payment_id
    stripe_payment_intent_id := some d.stripe_payment_intent_id
    amount := d.amount
    currency := d.currency
    status := d.status
    payment_method := d.payment_method }

/-- `syncPaymentToDatabase`: find-or-create keyed by the vendor
payment-intent id, full-field overwrite on update. -/
def syncPaymentToDatabase (pi : StripePaymentIntent) (userId : String)
    (subscriptionId : Option String) (newId : String)
    (pays : List PayRow) : List PayRow :=
  let d := paymentData pi userId subscriptionId
  match pays.find? (fun r => r.stripe_payment_intent_id == some pi.id) with
  | some _ =>
      updateFirstBy (fun r => r.stripe_payment_intent_id == some pi.id)
        (fun r => r.applyData d) pays
  | none => pays ++ [createPay newId d]

/-! ## JSON (JSON.parse / JSON.stringify)

The webhook route computes its "raw body" as `JSON.stringify(req.body)`
(webhook_router.ts line 47), where `req.body` is the output of the web
framework's JSON body parser on the transmitted bytes.  To compare that
payload with the raw bytes we embed JSON values together with
`JSON.stringify` and `JSON.parse` (numbers restricted to integers, which
covers the payloads considered; recursion is fuelled, with fuel bounds
large enough for every input, so that everything evaluates by `rfl`). -/

/-- A JSON value. -/
inductive Json where
  | null : Json
  | bool (b : Bool) : Json
  | num (n : Int) : Json
  | str (s : String) : Json
  | arr (elems : List Json) : Json
  | obj (members : List (String × Json)) : Json

/-- The opening brace character. -/
def lbrace : Char := Char.ofNat 123

/-- The closing brace character. -/
def rbrace : Char := Char.ofNat 125

/-- `JSON.stringify` escaping of one character inside a string literal. -/
def escChar (c : Char) : String :=
  if c = '"' then "\\\""
  else if c = '\\' then "\\\\"
  else if c = '\n' then "\\n"
  else if c = '\t' then "\\t"
  else if c = '\r' then "\\r"
  else String.singleton c

/-- `JSON.stringify` of a string: quoted and escaped. -/
def jsonQuote (s : String) : String :=
  "\"" ++ String.join (s.toList.map escChar) ++ "\""

mutual

/-- `JSON.stringify`: compact output, no whitespace, members in insertion
order. -/
def jsonStringify : Json → String
  | .null => "null"
  | .bool true => "true"
  | .bool false => "false"
  | .num n => toString n
  | .str s => jsonQuote s
  | .arr xs => "[" ++ stringifyElems xs ++ "]"
  | .obj kvs => "\x7b" ++ stringifyMembers kvs ++ "\x7d"

/-- Comma-separated stringification of array elements. -/
def stringifyElems : List Json → String
  | [] => ""
  | [x] => jsonStringify x
  | x :: y :: xs => jsonStringify x ++ "," ++ stringifyElems (y :: xs)

/-- Comma-separated stringification of object members. -/
def stringifyMembers : List (String × Json) → String
  | [] => ""
  | [(k, v)] => jsonQuote k ++ ":" ++ jsonStringify v
  | (k, v) :: m :: ms =>
      jsonQuote k ++ ":" ++ jsonStringify v ++ "," ++ stringifyMembers (m :: ms)

end

/-- Skip JSON whitespace. -/
def skipWs : List Char → List Char
  | [] => []
  | c :: cs =>
    if c = ' ' ∨ c = '\n' ∨ c = '\t' ∨ c = '\r' then skipWs cs else c :: cs

/-- Parse the body of a JSON string literal after the opening quote,
returning the decoded string and the input after the closing quote. -/
def parseStringBody : List Char → Option (String × List Char)
  | [] => none
  | c :: cs =>
    if c = '"' then some ("", cs)
    else if c = '\\' then
      match cs with
      | [] => none
      | e :: cs2 =>
        let dec : Option Char :=
          if e = '"' then some '"'
          else if e = '\\' then some '\\'
          else if e = 'n' then some '\n'
          else if e = 't' then some '\t'
          else if e = 'r' then some '\r'
          else none
        match dec with
        | none => none
        | some ch =>
          (parseStringBody cs2).map (fun p => (String.singleton ch ++ p.1, p.2))
    else (parseStringBody cs).map (fun p => (String.singleton c ++ p.1, p.2))

/-- Split off a maximal run of leading decimal digits. -/
def takeDigits : List Char → List Char × List Char
  | [] => ([], [])
  | c :: cs =>
    if c.isDigit then
      let p := takeDigits cs
      (c :: p.1, p.2)
    else ([], c :: cs)

/-- Digit characters to a natural number. -/
def digitsToNat (ds : List Char) : Nat :=
  ds.foldl (fun acc c => acc * 10 + (c.toNat - 48)) 0

/-- Work items for the parser: a value, the members of an object after
its opening brace, or the elements of an array after its opening
bracket. -/
inductive ParseJob where
  | val
  | arrayTail
  | objectTail

/-- Parser outputs, one per job kind. -/
inductive ParseOut where
  | j (v : Json)
  | js (l : List Json)
  | kvs (l : List (String × Json))

/-- Fuelled core of `JSON.parse` (integer numbers; the fuel only bounds
recursion depth and element count, both below the input length). -/
def jparseAux : Nat → ParseJob → List Char → Option (ParseOut × List Char)
  | 0, _, _ => none
  | fuel + 1, .val, cs =>
    match skipWs cs with
    | [] => none
    | c :: rest =>
      if c = lbrace then
        match jparseAux fuel .objectTail rest with
        | some (.kvs l, r) => some (.j (.obj l), r)
        | _ => none
      else if c = '[' then
        match jparseAux fuel .arrayTail rest with
        | some (.js l, r) => some (.j (.arr l), r)
        | _ => none
      else if c = '"' then
        (parseStringBody rest).map (fun p => (.j (.str p.1), p.2))
      else if c = 'n' then
        match rest with
        | 'u' :: 'l' :: 'l' :: r => some (.j .null, r)
        | _ => none
      else if c = 't' then
        match rest with
        | 'r' :: 'u' :: 'e' :: r => some (.j (.bool true), r)
        | _ => none
      else if c = 'f' then
        match rest with
        | 'a' :: 'l' :: 's' :: 'e' :: r => some (.j (.bool false), r)
        | _ => none
      else if c = '-' then
        match takeDigits rest with
        | ([], _) => none
        | (ds, r) => some (.j (.num (-(digitsToNat ds : Int))), r)
      else if c.isDigit then
        match takeDigits (c :: rest) with
        | (ds, r) => some (.j (.num (digitsToNat ds)), r)
      else none
  | fuel + 1, .arrayTail, cs =>
    match skipWs cs with
    | [] => none
    | c :: r =>
      if c = ']' then some (.js [], r)
      else
        match jparseAux fuel .val (c :: r) with
        | some (.j v, r2) =>
          match skipWs r2 with
          | c2 :: r3 =>
            if c2 = ',' then
              match jparseAux fuel .arrayTail r3 with
              | some (.js l, r4) => some (.js (v :: l), r4)
              | _ => none
            else if c2 = ']' then some (.js [v], r3)
            else none
          | [] => none
        | _ => none
  | fuel + 1, .objectTail, cs =>
    match skipWs cs with
    | [] => none
    | c :: r =>
      if c = rbrace then some (.kvs [], r)
      else if c = '"' then
        match parseStringBody r with
        | none => none
        | some (k, r2) =>
          match skipWs r2 with
          | c2 :: r3 =>
            if c2 = ':' then
              match jparseAux fuel .val r3 with
              | some (.j v, r4) =>
                match skipWs r4 with
                | c3 :: r5 =>
                  if c3 = ',' then
                    match jparseAux fuel .objectTail r5 with
                    | some (.kvs l, r6) => some (.kvs ((k, v) :: l), r6)
                    | _ => none
                  else if c3 = rbrace then some (.kvs [(k, v)], r5)
                  else none
                | [] => none
              | _ => none
            else none
          | [] => none
      else none

/-- `JSON.parse`: parse one value and require only whitespace after it. -/
def jsonParse (s : String) : Option Json :=
  match jparseAux (s.length + 1) .val s.toList with
  | some (.j v, rest) => if skipWs rest = [] then some v else none
  | _ => none

/-- Modelled from the spec: the web framework's JSON body-parsing
middleware (the `Server` bootstrap installing it is not part of the
source snapshot).  Per the spec the webhook body is the vendor's JSON
event envelope; the middleware parses the raw transmitted bytes, so a
request with raw body `raw` reaches the router with
`req.body = jsonParse raw`. -/
def frameworkParsedBody (raw : String) : Option Json := jsonParse raw

/-- The payload `handleStripeWebhook` passes to `verifyWebhookSignature`:
`const rawBody = JSON.stringify(req.body)` (webhook_router.ts line
47). -/
def rawBodyPassedToVerify (body : Json) : String := jsonStringify body

/-! ## The webhook route (webhook_router.ts) -/

/-- The vendor object inside an event envelope.  The route casts
`event.data.object` according to `event.type`; Stripe guarantees the
object's shape matches the event type, which the typed constructors
reflect. -/
inductive EventData where
  | subscription (s : StripeSubscription)
  | paymentIntent (p : StripePaymentIntent)

/-- A verified vendor event: `{ type, data: { object } }`. -/
structure StripeEvent where
  type : String
  data : EventData

/-- The stripe-event shapes actually delivered by the vendor: the data
object's constructor matches the event type. -/
def eventWellTyped (e : StripeEvent) : Prop :=
  match e.data with
  | .subscription _ =>
      e.type ∈ ["customer.subscription.created", "customer.subscription.updated",
                "customer.subscription.deleted"]
  | .paymentIntent _ =>
      e.type ∈ ["payment_intent.succeeded", "payment_intent.payment_failed"]

/-- An event whose embedded object carries no truthy owner user id in its
metadata. -/
def ownerMetadataMissing (e : StripeEvent) : Prop :=
  match e.data with
  | .subscription s => jsTruthyStr s.metadataUserId = false
  | .paymentIntent p => jsTruthyStr p.metadataUserId = false

/-- The store visible to the webhook route: the `subscriptions` and
`payments` tables. -/
structure Store where
  subs : List (SubRow Int)
  payments : List PayRow
deriving DecidableEq

/-- The route's HTTP response: `res.json({ received: true })` or
`res.sendError(message, status)`. -/
inductive WebhookResp where
  | received
  | err (msg : String) (status : Nat)
deriving DecidableEq, Repr

/-- HTTP status of a webhook response (`res.json` answers 200). -/
def WebhookResp.statusCode : WebhookResp → Nat
  | .received => 200
  | .err _ s => s

/-- Result of one webhook delivery: the response, the resulting store and
the `console.error` / `console.log` lines emitted while handling it. -/
structure WebhookOutcome where
  resp : WebhookResp
  store : Store
  logs : List String

/-- A webhook HTTP request as the route sees it: the `stripe-signature`
header and the framework-parsed body. -/
structure WebhookRequest where
  stripeSignature : Option String
  body : Json

/-- `findOne({ where: { user_id }, order: [['created_at', 'DESC']] })`:
the user's most recently created subscription row. -/
def findByUserIdLatest (uid : String) (subs : List (SubRow δ)) : Option (SubRow δ) :=
  (subs.filter (fun r => r.user_id == uid)).foldl
    (fun acc r =>
      match acc with
      | none => some r
      | some b => if r.created_at > b.created_at then some r else acc) none

/-- `handleSubscriptionUpdate`: log and drop when the subscription
metadata carries no truthy userId, otherwise sync the subscription. -/
def handleSubscriptionUpdate (s : StripeSubscription) (newId : String)
    (createdAt : Int) (store : Store) : Store × List String :=
  match s.metadataUserId with
  | none => (store, ["No userId in subscription metadata"])
  | some uid =>
    if uid = "" then (store, ["No userId in subscription metadata"])
    else
      ({ store with
         subs := syncSubscriptionToDatabase s uid newId createdAt store.subs }, [])

/-- `handleSubscriptionDeleted`: set the matching row's status to
`cancelled` and stamp `cancelled_at = new Date()`; no-op when no row
matches. -/
def handleSubscriptionDeleted (s : StripeSubscription) (nowMs : Int)
    (store : Store) : Store :=
  match findByStripeId s.id store.subs with
  | some _ =>
    { store with
      subs := updateFirstBy
        (fun r => r.stripe_subscription_id == some s.id)
        (fun r => { r with status := "cancelled", cancelled_at := some nowMs })
        store.subs }
  | none => store

/-- `handlePaymentSucceeded`: log and drop when the payment-intent
metadata carries no truthy userId, otherwise sync the payment, linked to
the user's most recently created subscription row when one exists. -/
def handlePaymentSucceeded (p : StripePaymentIntent) (newId : String)
    (store : Store) : Store × List String :=
  match p.metadataUserId with
  | none => (store, ["No userId in payment intent metadata"])
  | some uid =>
    if uid = "" then (store, ["No userId in payment intent metadata"])
    else
      let sub := findByUserIdLatest uid store.subs
      ({ store with
         payments :=
           syncPaymentToDatabase p uid (sub.map (fun r => r.id)) newId
             store.payments }, [])

/-- `handlePaymentFailed`: silently drop (the source logs nothing on this
path) when the metadata carries no truthy userId, otherwise sync the
payment without a subscription link. -/
def handlePaymentFailed (p : StripePaymentIntent) (newId : String)
    (store : Store) : Store × List String :=
  match p.metadataUserId with
  | none => (store, [])
  | some uid =>
    if uid = "" then (store, [])
    else
      ({ store with
         payments := syncPaymentToDatabase p uid none newId store.payments }, [])

/-- The `console.error` line the route emits when dropping an owner-less
event of the given type (none for `payment_intent.payment_failed`). -/
def ownerlessDropLog (t : String) : List String :=
  if t = "customer.subscription.created" ∨ t = "customer.subscription.updated" then
    ["No userId in subscription metadata"]
  else if t = "payment_intent.succeeded" then
    ["No userId in payment intent metadata"]
  else []

/-- `handleStripeWebhook`: answer 400 when the signature header or the
configured webhook secret is missing, verify the signature over
`JSON.stringify(req.body)` (400 on failure), then dispatch on the event
type; every dispatched or ignored event answers `{ received: true }`.
`verify` abstracts the vendor SDK's `webhooks.constructEvent`;
`newId` / `createdAt` / `nowMs` are the fresh primary key, row timestamp
and clock reading the store and clock supply. -/
def handleStripeWebhook
    (verify : String → String → String → Option StripeEvent)
    (webhookSecret : Option String) (req : WebhookRequest)
    (newId : String) (createdAt nowMs : Int) (store : Store) : WebhookOutcome :=
  if !jsTruthyStr req.stripeSignature || !jsTruthyStr webhookSecret then
    { resp := .err "Missing stripe signature or webhook secret" 400
      store := store, logs := [] }
  else
    match verify (rawBodyPassedToVerify req.body)
        (req.stripeSignature.getD "") (webhookSecret.getD "") with
    | none =>
      { resp := .err "Webhook signature verification failed" 400
        store := store, logs := ["Webhook signature verification failed:"] }
    | some event =>
      match event.type, event.data with
      | "customer.subscription.created", .subscription s
      | "customer.subscription.updated", .subscription s =>
        let r := handleSubscriptionUpdate s newId createdAt store
        { resp := .received, store := r.1, logs := r.2 }
      | "customer.subscription.deleted", .subscription s =>
        { resp := .received, store := handleSubscriptionDeleted s nowMs store
          logs := [] }
      | "payment_intent.succeeded", .paymentIntent p =>
        let r := handlePaymentSucceeded p newId store
        { resp := .received, store := r.1, logs := r.2 }
      | "payment_intent.payment_failed", .paymentIntent p =>
        let r := handlePaymentFailed p newId store
        { resp := .received, store := r.1, logs := r.2 }
      | t, _ =>
        { resp := .received, store := store
          logs := ["Unhandled event type: " ++ t] }

/-! ## Calendar dates and the funding service (admin_service.ts) -/

/-- A calendar date as the funding code uses it: `new Date()` and
`setMonth` operate on the year, 0-based month and day-of-month
components (the time of day plays no role in the claims). -/
structure JDate where
  year : Int
  month : Int
  day : Int
deriving DecidableEq, Repr

/-- Gregorian leap year. -/
def isLeapYear (y : Int) : Bool :=
  (y % 4 = 0 && !(y % 100 = 0)) || y % 400 = 0

/-- Days in a (0-based) month of a given year. -/
def daysInMonth (y m : Int) : Int :=
  if m = 1 then (if isLeapYear y then 29 else 28)
  else if m = 3 ∨ m = 5 ∨ m = 8 ∨ m = 10 then 30
  else 31

/-- `d.setMonth(d.getMonth() + months)`: JS calendar-month arithmetic.
The month and year components roll; a day-of-month beyond the target
month's length overflows into the following month exactly as the JS
time-value normalization does (the excess is at most 3 days, so one
carry suffices). -/
def setMonthAdd (d : JDate) (months : Int) : JDate :=
  let total := d.year * 12 + d.month + months
  let y := Int.ediv total 12
  let m := Int.emod total 12
  if d.day ≤ daysInMonth y m then ⟨y, m, d.day⟩
  else if m = 11 then ⟨y + 1, 0, d.day - daysInMonth y m⟩
  else ⟨y, m + 1, d.day - daysInMonth y m⟩

/-- A row of the `users` table (the only field the funding path
writes). -/
structure UserRow where
  id : String
  subscription_status : String
deriving DecidableEq, Repr

/-- A row of the `admin_funding` audit table (admin_funding.model.ts). -/
structure FundingRow where
  id : String
  user_id : String
  amount : ℚ
  months_funded : Int
  start_date : JDate
  end_date : JDate
  status : String
  created_by : String
deriving DecidableEq, Repr

/-- The state the funding service touches: users, subscriptions and the
funding audit table. -/
structure FundState where
  users : List UserRow
  subs : List (SubRow JDate)
  fundings : List FundingRow
deriving DecidableEq

/-- `fundUserSubscription(userId, adminId, months = 3, amount?)` from
`admin_service.ts`: verify the user exists (`User not found` otherwise);
compute `endDate = now + months` with `setMonth`; create the AdminFunding
audit row (`amount || 0`, status `active`); then extend the user's most
recently created subscription — overwriting only `end_date`,
`funded_by_admin` and `status` — or, if the user has none, create a fresh
monthly admin-funded one; finally set the user's denormalized
`subscription_status` to `active`.  `now` is the clock reading;
`newFundingId` / `newSubId` / `newSubCreatedAt` are the store-generated
identities.  Returns the new state and the `success` flag of the
response. -/
def fundUserSubscription (st : FundState) (userId adminId : String)
    (months : Int) (amount : Option ℚ) (now : JDate)
    (newFundingId newSubId : String) (newSubCreatedAt : Int) :
    FundState × Bool :=
  match st.users.find? (fun u => u.id == userId) with
  | none => (st, false)
  | some _ =>
    let startDate := now
    let endDate := setMonthAdd now months
    let funding : FundingRow :=
      { id := newFundingId, user_id := userId, amount := amount.getD 0
        months_funded := months, start_date := startDate, end_date := endDate
        status := "active", created_by := adminId }
    let fundings1 := st.fundings ++ [funding]
    let usersAfter := st.users.map (fun u =>
      if u.id == userId then { u with subscription_status := "active" } else u)
    match findByUserIdLatest userId st.subs with
    | some sub =>
      ({ users := usersAfter
         subs := st.subs.map (fun r =>
           if r.id == sub.id then
             { r with end_date := some endDate, funded_by_admin := true, status := "active" }
           else r)
         fundings := fundings1 }, true)
    | none =>
      ({ users := usersAfter
         subs := st.subs ++ [{
           id := newSubId
           user_id := userId
           stripe_subscription_id := none
           status := "active"
           plan_type := "monthly"
           start_date := some startDate
           end_date := some endDate
           current_period_start := none
           current_period_end := none
           funded_by_admin := true
           cancelled_at := none
           created_at := newSubCreatedAt }]
         fundings := fundings1 }, true)

end FilmMania

namespace FilmMania

/-- C4: the subscription status mapping is total: the seven table entries
map as documented and every other vendor status string maps to
`inactive`. -/
theorem mapStripeStatus_total_table :
    mapStripeStatus "active" = "active" ∧
    mapStripeStatus "trialing" = "trialing" ∧
    mapStripeStatus "past_due" = "past_due" ∧
    mapStripeStatus "canceled" = "cancelled" ∧
    mapStripeStatus "unpaid" = "inactive" ∧
    mapStripeStatus "incomplete" = "inactive" ∧
    mapStripeStatus "incomplete_expired" = "inactive" ∧
    ∀ s : String,
      s ∉ ["active", "trialing", "past_due", "canceled", "unpaid",
           "incomplete", "incomplete_expired"] →
      mapStripeStatus s = "inactive" := by
  refine ⟨rfl, rfl, rfl, rfl, rfl, rfl, rfl, ?_⟩
  intro s hs
  unfold mapStripeStatus
  split <;> simp_all

/-- Witness for C4: the vendor status `paused` is outside the table and
maps to `inactive`. -/
theorem mapStripeStatus_total_table_witness :
    mapStripeStatus "paused" = "inactive" :=
  mapStripeStatus_total_table.2.2.2.2.2.2.2 "paused" (by decide)

/-- C5 counterexample: the two payment-status variants also disagree on
the vendor status `processing` (variant A gives `pending`, the shared
variant gives `processing`), so they do not disagree only on
`canceled`. -/
theorem mapPaymentStatus_variants_processing_counterexample :
    mapPaymentStatus "processing" = "pending" ∧
    mapPaymentStatusShared "processing" = "processing" ∧
    mapPaymentStatus "processing" ≠ mapPaymentStatusShared "processing" ∧
    ("processing" : String) ≠ "canceled" := by
  refine ⟨rfl, rfl, ?_, ?_⟩ <;> decide

/-- C5 (amended): the two payment-status variants disagree exactly on the
vendor statuses `canceled` (failed vs canceled) and `processing`
(pending vs processing) and agree on every other vendor status string,
including the `pending` default for unlisted strings. -/
theorem mapPaymentStatus_variants_agree_elsewhere :
    (∀ s : String, s ≠ "canceled" → s ≠ "processing" →
      mapPaymentStatus s = mapPaymentStatusShared s) ∧
    mapPaymentStatus "canceled" = "failed" ∧
    mapPaymentStatusShared "canceled" = "canceled" ∧
    mapPaymentStatus "processing" = "pending" ∧
    mapPaymentStatusShared "processing" = "processing" := by
  refine ⟨?_, rfl, rfl, rfl, rfl⟩
  intro s h1 h2
  unfold mapPaymentStatus mapPaymentStatusShared
  split <;> simp_all

/-- Witness for C5 (amended): the two variants agree on the unlisted
vendor status `requires_action`, both defaulting to `pending`. -/
theorem mapPaymentStatus_variants_agree_elsewhere_witness :
    mapPaymentStatus "requires_action" = mapPaymentStatusShared "requires_action" :=
  mapPaymentStatus_variants_agree_elsewhere.1 "requires_action" (by decide) (by decide)

/-! ### Generic lemmas about the find-one / update-first upsert shape -/

theorem mem_updateFirstBy {p : α → Bool} {f : α → α} {l : List α} {r : α}
    (h : r ∈ updateFirstBy p f l) : r ∈ l ∨ ∃ a ∈ l, r = f a := by
  induction l with
  | nil => simp [updateFirstBy] at h
  | cons x xs ih =>
    simp only [updateFirstBy] at h
    by_cases hx : p x
    · rw [if_pos hx] at h
      rcases List.mem_cons.mp h with h1 | h2
      · exact Or.inr ⟨x, List.mem_cons_self .., h1⟩
      · exact Or.inl (List.mem_cons_of_mem _ h2)
    · rw [if_neg hx] at h
      rcases List.mem_cons.mp h with h1 | h2
      · exact Or.inl (h1 ▸ List.mem_cons_self ..)
      · rcases ih h2 with h3 | ⟨a, ha, h4⟩
        · exact Or.inl (List.mem_cons_of_mem _ h3)
        · exact Or.inr ⟨a, List.mem_cons_of_mem _ ha, h4⟩

theorem image_mem_updateFirstBy {p : α → Bool} {f : α → α} {l : List α} {r : α}
    (h : l.find? p = some r) : f r ∈ updateFirstBy p f l := by
  induction l with
  | nil => simp at h
  | cons x xs ih =>
    by_cases hx : p x
    · simp only [List.find?, hx] at h
      cases h
      simp [updateFirstBy, hx]
    · simp only [List.find?, hx] at h
      simp [updateFirstBy, hx, ih h]

theorem updateFirstBy_idem {p : α → Bool} {f : α → α}
    (hp : ∀ a, p a = true → p (f a) = true)
    (hf : ∀ a, p a = true → f (f a) = f a) (l : List α) :
    updateFirstBy p f (updateFirstBy p f l) = updateFirstBy p f l := by
  induction l with
  | nil => rfl
  | cons x xs ih =>
    by_cases hx : p x
    · simp [updateFirstBy, hx, hp x hx, hf x hx]
    · simp [updateFirstBy, hx, ih]

theorem find?_updateFirstBy_some {p : α → Bool} {f : α → α} {l : List α} {r : α}
    (hp : ∀ a, p a = true → p (f a) = true) (h : l.find? p = some r) :
    (updateFirstBy p f l).find? p = some (f r) := by
  induction l with
  | nil => simp at h
  | cons x xs ih =>
    by_cases hx : p x
    · simp only [List.find?, hx] at h
      cases h
      simp [updateFirstBy, hx, List.find?, hp _ hx]
    · simp only [List.find?, hx] at h
      simp [updateFirstBy, hx, List.find?, ih h]

theorem find?_append_none {p : α → Bool} {l₁ l₂ : List α}
    (h : l₁.find? p = none) : (l₁ ++ l₂).find? p = l₂.find? p := by
  induction l₁ with
  | nil => rfl
  | cons x xs ih =>
    by_cases hx : p x
    · simp [List.find?, hx] at h
    · simp only [List.find?, hx] at h
      simp [List.find?, hx, ih h]

theorem updateFirstBy_append_none {p : α → Bool} {f : α → α} {l₁ l₂ : List α}
    (h : l₁.find? p = none) :
    updateFirstBy p f (l₁ ++ l₂) = l₁ ++ updateFirstBy p f l₂ := by
  induction l₁ with
  | nil => rfl
  | cons x xs ih =>
    by_cases hx : p x
    · simp [List.find?, hx] at h
    · simp only [List.find?, hx] at h
      simp [updateFirstBy, hx, ih h]

theorem filter_length_updateFirstBy {p : α → Bool} {f : α → α}
    (hp : ∀ a, p a = true → p (f a) = true) (l : List α) :
    ((updateFirstBy p f l).filter p).length = (l.filter p).length := by
  induction l with
  | nil => rfl
  | cons x xs ih =>
    by_cases hx : p x
    · simp [updateFirstBy, hx, List.filter, hp x hx]
    · simp [updateFirstBy, hx, List.filter, ih]

theorem filter_length_pos_of_find? {p : α → Bool} {l : List α} {r : α}
    (h : l.find? p = some r) : 1 ≤ (l.filter p).length := by
  induction l with
  | nil => simp at h
  | cons x xs ih =>
    by_cases hx : p x
    · simp [List.filter, hx]
    · simp only [List.find?, hx] at h
      simpa [List.filter, hx] using ih h

/-- C1: the reconciliation upsert is idempotent: running
`syncSubscriptionToDatabase` twice on the same vendor subscription event
leaves the store exactly as after the first run (whatever primary key or
timestamp the store would generate for a second insert), and if the store
held at most one row for the event's vendor subscription id, it holds
exactly one afterwards — no duplicate row appears. -/
theorem syncSubscriptionToDatabase_idempotent
    (ev : StripeSubscription) (uid id1 id2 : String) (t1 t2 : Int)
    (subs : List (SubRow Int)) :
    syncSubscriptionToDatabase ev uid id2 t2
        (syncSubscriptionToDatabase ev uid id1 t1 subs) =
      syncSubscriptionToDatabase ev uid id1 t1 subs ∧
    (countByStripeId ev.id subs ≤ 1 →
      countByStripeId ev.id (syncSubscriptionToDatabase ev uid id1 t1 subs) = 1) := by
  have hp : ∀ a : SubRow Int,
      (a.stripe_subscription_id == some ev.id) = true →
      ((a.applyData (subscriptionData ev uid)).stripe_subscription_id == some ev.id)
        = true := by
    intro a _
    simp [SubRow.applyData, subscriptionData]
  have hf : ∀ a : SubRow Int,
      (a.stripe_subscription_id == some ev.id) = true →
      (a.applyData (subscriptionData ev uid)).applyData (subscriptionData ev uid) =
        a.applyData (subscriptionData ev uid) := fun a _ => rfl
  have hnew : ((createSub id1 t1 (subscriptionData ev uid)).stripe_subscription_id
      == some ev.id) = true := by
    simp [createSub, subscriptionData]
  have happ : (createSub id1 t1 (subscriptionData ev uid)).applyData
      (subscriptionData ev uid) = createSub id1 t1 (subscriptionData ev uid) := rfl
  constructor
  · rcases hfind :
        subs.find? (fun r : SubRow Int => r.stripe_subscription_id == some ev.id)
        with _ | r
    · -- create branch: the second run finds and updates the created row
      have hfind2 :
          (subs ++ [createSub id1 t1 (subscriptionData ev uid)]).find?
              (fun r : SubRow Int => r.stripe_subscription_id == some ev.id) =
            some (createSub id1 t1 (subscriptionData ev uid)) := by
        rw [find?_append_none hfind]
        simp [List.find?, hnew]
      simp only [syncSubscriptionToDatabase, findByStripeId, hfind, hfind2]
      rw [updateFirstBy_append_none hfind]
      simp [updateFirstBy, hnew, happ]
    · -- update branch: the second run re-applies the same data
      have hfind2 := find?_updateFirstBy_some
        (f := fun r : SubRow Int => r.applyData (subscriptionData ev uid)) hp hfind
      simp only [syncSubscriptionToDatabase, findByStripeId, hfind, hfind2]
      exact updateFirstBy_idem hp hf subs
  · intro hle
    rcases hfind :
        subs.find? (fun r : SubRow Int => r.stripe_subscription_id == some ev.id)
        with _ | r
    · have hnil :
          subs.filter (fun r : SubRow Int => r.stripe_subscription_id == some ev.id)
            = [] :=
        List.filter_eq_nil_iff.mpr (fun a ha => List.find?_eq_none.mp hfind a ha)
      simp only [syncSubscriptionToDatabase, findByStripeId, hfind, countByStripeId]
      rw [List.filter_append, hnil]
      simp [List.filter, hnew]
    · have h1 :
          1 ≤ (subs.filter
            (fun r : SubRow Int => r.stripe_subscription_id == some ev.id)).length :=
        filter_length_pos_of_find? hfind
      have heq : countByStripeId ev.id subs = 1 := le_antisymm hle h1
      simp only [syncSubscriptionToDatabase, findByStripeId, hfind, countByStripeId]
      rw [filter_length_updateFirstBy hp]
      exact heq

/-- Witness for C1: a concrete event applied twice to the empty store,
which holds zero rows for the vendor id, yields a single stable row. -/
theorem syncSubscriptionToDatabase_idempotent_witness :
    syncSubscriptionToDatabase
        ⟨"sub_1", "active", 100, none, some 10, some 20, none, some "month", some "u1"⟩
        "u1" "id2" 2
        (syncSubscriptionToDatabase
          ⟨"sub_1", "active", 100, none, some 10, some 20, none, some "month", some "u1"⟩
          "u1" "id1" 1 []) =
      syncSubscriptionToDatabase
        ⟨"sub_1", "active", 100, none, some 10, some 20, none, some "month", some "u1"⟩
        "u1" "id1" 1 [] ∧
    countByStripeId "sub_1"
      (syncSubscriptionToDatabase
        ⟨"sub_1", "active", 100, none, some 10, some 20, none, some "month", some "u1"⟩
        "u1" "id1" 1 []) = 1 :=
  ⟨(syncSubscriptionToDatabase_idempotent
      ⟨"sub_1", "active", 100, none, some 10, some 20, none, some "month", some "u1"⟩
      "u1" "id1" "id2" 1 2 []).1,
   (syncSubscriptionToDatabase_idempotent
      ⟨"sub_1", "active", 100, none, some 10, some 20, none, some "month", some "u1"⟩
      "u1" "id1" "id2" 1 2 []).2 (by decide)⟩

/-- Every status produced by the payment mapping of `stripe.service.ts`
lies in the `payments.status` column's vocabulary. -/
theorem mapPaymentStatus_mem_model_vocab (s : String) :
    mapPaymentStatus s ∈ ["pending", "succeeded", "failed", "refunded"] := by
  unfold mapPaymentStatus
  split <;> decide

/-- C6: every row `syncPaymentToDatabase` writes (rows it did not touch
are already in the store) carries a status in the internal set
pending/succeeded/failed/refunded, the vendor minor-unit amount divided
by 100, and the vendor currency; in particular a payment intent with
amount 1999 and currency `usd` is persisted with amount 19.99 and
currency `usd`. -/
theorem syncPaymentToDatabase_status_amount
    (pi : StripePaymentIntent) (uid : String) (subid : Option String)
    (newId : String) (pays : List PayRow) :
    (∀ r ∈ syncPaymentToDatabase pi uid subid newId pays,
      r ∈ pays ∨
        (r.status ∈ ["pending", "succeeded", "failed", "refunded"] ∧
         r.amount = (pi.amount : ℚ) / 100 ∧ r.currency = pi.currency)) ∧
    (pi.amount = 1999 → pi.currency = "usd" →
      ∃ r ∈ syncPaymentToDatabase pi uid subid newId pays,
        r.stripe_payment_intent_id = some pi.id ∧
        r.amount = (19.99 : ℚ) ∧ r.currency = "usd") := by
  have hstat := mapPaymentStatus_mem_model_vocab pi.status
  constructor
  · intro r hr
    rcases hfind :
        pays.find? (fun r : PayRow => r.stripe_payment_intent_id == some pi.id)
        with _ | r0
    · simp only [syncPaymentToDatabase, hfind] at hr
      rcases List.mem_append.mp hr with h1 | h2
      · exact Or.inl h1
      · rcases List.mem_singleton.mp h2 with rfl
        exact Or.inr ⟨hstat, rfl, rfl⟩
    · simp only [syncPaymentToDatabase, hfind] at hr
      rcases mem_updateFirstBy hr with h1 | ⟨a, _, rfl⟩
      · exact Or.inl h1
      · exact Or.inr ⟨hstat, rfl, rfl⟩
  · intro ham hcur
    have hval : ((pi.amount : ℚ) / 100) = (19.99 : ℚ) := by
      rw [ham]
      norm_num
    rcases hfind :
        pays.find? (fun r : PayRow => r.stripe_payment_intent_id == some pi.id)
        with _ | r0
    · refine ⟨createPay newId (paymentData pi uid subid), ?_, rfl, ?_, ?_⟩
      · simp only [syncPaymentToDatabase, hfind]
        exact List.mem_append_right _ (List.mem_singleton.mpr rfl)
      · exact hval
      · exact hcur
    · refine ⟨r0.applyData (paymentData pi uid subid), ?_, rfl, ?_, ?_⟩
      · simp only [syncPaymentToDatabase, hfind]
        exact image_mem_updateFirstBy hfind
      · exact hval
      · exact hcur

/-- Witness for C6: the concrete 1999-minor-unit usd payment intent is
persisted into the empty store with amount 19.99 and currency `usd`. -/
theorem syncPaymentToDatabase_status_amount_witness :
    ∃ r ∈ syncPaymentToDatabase
        ⟨"pi_1", 1999, "usd", "succeeded", ["card"], some "u1"⟩
        "u1" none "p1" [],
      r.stripe_payment_intent_id = some "pi_1" ∧
      r.amount = (19.99 : ℚ) ∧ r.currency = "usd" :=
  (syncPaymentToDatabase_status_amount
    ⟨"pi_1", 1999, "usd", "succeeded", ["card"], some "u1"⟩
    "u1" none "p1" []).2 rfl rfl

/-- C2 (code bug): the webhook handler does not pass the raw request
bytes to signature verification.  For the transmitted raw body
`\x7b"a": 1\x7d` (note the space) the framework's JSON parse succeeds, but the
payload the route hands to `verifyWebhookSignature` is the re-serialized
`\x7b"a":1\x7d`, which differs from the raw bytes — contradicting both the
spec and the route's own `Get raw body` comment. -/
theorem rawBodyPassedToVerify_ne_raw_bytes :
    frameworkParsedBody "\x7b\x22a\x22: 1\x7d" = some (Json.obj [("a", Json.num 1)]) ∧
    rawBodyPassedToVerify (Json.obj [("a", Json.num 1)]) = "\x7b\x22a\x22:1\x7d" ∧
    rawBodyPassedToVerify (Json.obj [("a", Json.num 1)]) ≠ "\x7b\x22a\x22: 1\x7d" :=
  ⟨rfl, rfl, by decide⟩

/-- C3: a webhook request with a missing signature header, a missing
configured secret, or a signature that fails verification against the
body is answered with status 400 and performs zero writes: the store
after the request equals the store before it. -/
theorem webhook_signature_failure_rejected_without_writes
    (verify : String → String → String → Option StripeEvent)
    (webhookSecret : Option String) (req : WebhookRequest)
    (newId : String) (createdAt nowMs : Int) (store : Store)
    (h : jsTruthyStr req.stripeSignature = false ∨
         jsTruthyStr webhookSecret = false ∨
         verify (rawBodyPassedToVerify req.body)
           (req.stripeSignature.getD "") (webhookSecret.getD "") = none) :
    (handleStripeWebhook verify webhookSecret req newId createdAt
        nowMs store).resp.statusCode = 400 ∧
    (handleStripeWebhook verify webhookSecret req newId createdAt
        nowMs store).store = store := by
  by_cases h1 : jsTruthyStr req.stripeSignature
  · by_cases h2 : jsTruthyStr webhookSecret
    · have hv : verify (rawBodyPassedToVerify req.body)
          (req.stripeSignature.getD "") (webhookSecret.getD "") = none := by
        rcases h with h | h | h
        · rw [h1] at h
          exact absurd h (by decide)
        · rw [h2] at h
          exact absurd h (by decide)
        · exact h
      simp [handleStripeWebhook, h1, h2, hv, WebhookResp.statusCode]
    · simp only [Bool.not_eq_true] at h2
      simp [handleStripeWebhook, h2, WebhookResp.statusCode]
  · simp only [Bool.not_eq_true] at h1
    simp [handleStripeWebhook, h1, WebhookResp.statusCode]

/-- Witness for C3: a concrete request whose signature fails verification
is answered 400 with the store untouched. -/
theorem webhook_signature_failure_rejected_without_writes_witness :
    (handleStripeWebhook (fun _ _ _ => none) (some "whsec")
        ⟨some "sig", Json.null⟩ "n1" 0 0 ⟨[], []⟩).resp.statusCode = 400 ∧
    (handleStripeWebhook (fun _ _ _ => none) (some "whsec")
        ⟨some "sig", Json.null⟩ "n1" 0 0 ⟨[], []⟩).store = ⟨[], []⟩ :=
  webhook_signature_failure_rejected_without_writes
    (fun _ _ _ => none) (some "whsec") ⟨some "sig", Json.null⟩ "n1" 0 0 ⟨[], []⟩
    (Or.inr (Or.inr rfl))

/-- C9 counterexample: a verified `payment_intent.payment_failed` event
lacking owner metadata is dropped with an empty log trace — the source's
`handlePaymentFailed` has no `console.error` — refuting "the drop is
logged" for payment-intent events; the store is untouched and the
response is still the success shape. -/
theorem webhook_ownerless_payment_failed_unlogged :
    (handleStripeWebhook
        (fun _ _ _ => some ⟨"payment_intent.payment_failed",
          .paymentIntent ⟨"pi_1", 1999, "usd", "failed", [], none⟩⟩)
        (some "whsec") ⟨some "sig", Json.null⟩ "n1" 0 0 ⟨[], []⟩).logs = [] ∧
    (handleStripeWebhook
        (fun _ _ _ => some ⟨"payment_intent.payment_failed",
          .paymentIntent ⟨"pi_1", 1999, "usd", "failed", [], none⟩⟩)
        (some "whsec") ⟨some "sig", Json.null⟩ "n1" 0 0 ⟨[], []⟩).store = ⟨[], []⟩ ∧
    (handleStripeWebhook
        (fun _ _ _ => some ⟨"payment_intent.payment_failed",
          .paymentIntent ⟨"pi_1", 1999, "usd", "failed", [], none⟩⟩)
        (some "whsec") ⟨some "sig", Json.null⟩ "n1" 0 0 ⟨[], []⟩).resp = .received :=
  ⟨rfl, rfl, rfl⟩

/-- C9 (amended): a verified owner-dependent event
(`customer.subscription.created` / `.updated`, `payment_intent.succeeded`
or `payment_intent.payment_failed`) whose metadata lacks a truthy owner
user id mutates neither table, propagates no exception, and is answered
with the success shape `received: true`; the drop is logged for the first
three event types but `payment_intent.payment_failed` is dropped
silently. -/
theorem webhook_ownerless_event_dropped
    (verify : String → String → String → Option StripeEvent)
    (webhookSecret : Option String) (req : WebhookRequest)
    (newId : String) (createdAt nowMs : Int) (store : Store)
    (e : StripeEvent) (s sec : String)
    (hs : req.stripeSignature = some s) (hs0 : s ≠ "")
    (hsec : webhookSecret = some sec) (hsec0 : sec ≠ "")
    (hv : verify (rawBodyPassedToVerify req.body) s sec = some e)
    (hw : eventWellTyped e) (hm : ownerMetadataMissing e)
    (hnodel : e.type ≠ "customer.subscription.deleted") :
    (handleStripeWebhook verify webhookSecret req newId createdAt
        nowMs store).store = store ∧
    (handleStripeWebhook verify webhookSecret req newId createdAt
        nowMs store).resp = .received ∧
    (handleStripeWebhook verify webhookSecret req newId createdAt
        nowMs store).logs = ownerlessDropLog e.type := by
  have hred : handleStripeWebhook verify webhookSecret req newId createdAt nowMs store =
      match e.type, e.data with
      | "customer.subscription.created", .subscription s
      | "customer.subscription.updated", .subscription s =>
        let r := handleSubscriptionUpdate s newId createdAt store
        { resp := .received, store := r.1, logs := r.2 }
      | "customer.subscription.deleted", .subscription s =>
        { resp := .received, store := handleSubscriptionDeleted s nowMs store
          logs := [] }
      | "payment_intent.succeeded", .paymentIntent p =>
        let r := handlePaymentSucceeded p newId store
        { resp := .received, store := r.1, logs := r.2 }
      | "payment_intent.payment_failed", .paymentIntent p =>
        let r := handlePaymentFailed p newId store
        { resp := .received, store := r.1, logs := r.2 }
      | t, _ =>
        { resp := .received, store := store
          logs := ["Unhandled event type: " ++ t] } := by
    rw [handleStripeWebhook, hs, hsec]
    simp only [jsTruthyStr, Option.getD]
    rw [if_neg (by simp [hs0, hsec0]), hv]
  rcases e with ⟨t, d⟩
  rcases d with s' | p
  · simp only [eventWellTyped, List.mem_cons, List.not_mem_nil, or_false] at hw
    rcases hw with rfl | rfl | rfl
    · rw [hred]
      unfold handleSubscriptionUpdate ownerlessDropLog
      simp only [ownerMetadataMissing, jsTruthyStr] at hm
      rcases hmu : s'.metadataUserId with _ | uid
      · simp [hmu]
      · rw [hmu] at hm
        have huid : uid = "" := by simpa using hm
        simp [hmu, huid]
    · rw [hred]
      unfold handleSubscriptionUpdate ownerlessDropLog
      simp only [ownerMetadataMissing, jsTruthyStr] at hm
      rcases hmu : s'.metadataUserId with _ | uid
      · simp [hmu]
      · rw [hmu] at hm
        have huid : uid = "" := by simpa using hm
        simp [hmu, huid]
    · exact absurd rfl hnodel
  · simp only [eventWellTyped, List.mem_cons, List.not_mem_nil, or_false] at hw
    rcases hw with rfl | rfl
    · rw [hred]
      unfold handlePaymentSucceeded ownerlessDropLog
      simp only [ownerMetadataMissing, jsTruthyStr] at hm
      rcases hmu : p.metadataUserId with _ | uid
      · simp [hmu]
      · rw [hmu] at hm
        have huid : uid = "" := by simpa using hm
        simp [hmu, huid]
    · rw [hred]
      unfold handlePaymentFailed ownerlessDropLog
      simp only [ownerMetadataMissing, jsTruthyStr] at hm
      rcases hmu : p.metadataUserId with _ | uid
      · simp [hmu]
      · rw [hmu] at hm
        have huid : uid = "" := by simpa using hm
        simp [hmu, huid]

/-- Witness for C9 (amended): a concrete owner-less
`customer.subscription.updated` event leaves the empty store untouched,
answers `received: true` and logs the subscription drop line. -/
theorem webhook_ownerless_event_dropped_witness :
    (handleStripeWebhook
        (fun _ _ _ => some ⟨"customer.subscription.updated",
          .subscription ⟨"sub_1", "active", 100, none, none, none, none, none, none⟩⟩)
        (some "whsec") ⟨some "sig", Json.null⟩ "n1" 0 0 ⟨[], []⟩).store = ⟨[], []⟩ ∧
    (handleStripeWebhook
        (fun _ _ _ => some ⟨"customer.subscription.updated",
          .subscription ⟨"sub_1", "active", 100, none, none, none, none, none, none⟩⟩)
        (some "whsec") ⟨some "sig", Json.null⟩ "n1" 0 0 ⟨[], []⟩).resp = .received ∧
    (handleStripeWebhook
        (fun _ _ _ => some ⟨"customer.subscription.updated",
          .subscription ⟨"sub_1", "active", 100, none, none, none, none, none, none⟩⟩)
        (some "whsec") ⟨some "sig", Json.null⟩ "n1" 0 0 ⟨[], []⟩).logs =
      ownerlessDropLog "customer.subscription.updated" :=
  webhook_ownerless_event_dropped
    (fun _ _ _ => some ⟨"customer.subscription.updated",
      .subscription ⟨"sub_1", "active", 100, none, none, none, none, none, none⟩⟩)
    (some "whsec") ⟨some "sig", Json.null⟩ "n1" 0 0 ⟨[], []⟩
    ⟨"customer.subscription.updated",
      .subscription ⟨"sub_1", "active", 100, none, none, none, none, none, none⟩⟩
    "sig" "whsec" rfl (by decide) rfl (by decide) rfl
    (by simp [eventWellTyped]) (by simp [ownerMetadataMissing, jsTruthyStr])
    (by decide)

/-- C7: funding a user who already has a subscription overwrites that
subscription's `end_date` with `now + months` calendar months (not the
old end date plus `months`), sets `funded_by_admin := true` and
`status := active`, and appends exactly one AdminFunding audit row with
status `active`, `months_funded = months` and the given amount
(defaulting to 0). -/
theorem fundUserSubscription_extends_from_now
    (st : FundState) (userId adminId : String) (months : Int)
    (amount : Option ℚ) (now : JDate) (fid sid : String) (t : Int)
    (u : UserRow) (hu : st.users.find? (fun v => v.id == userId) = some u)
    (sub : SubRow JDate) (hsub : findByUserIdLatest userId st.subs = some sub) :
    (fundUserSubscription st userId adminId months amount now fid sid t).2 = true ∧
    (fundUserSubscription st userId adminId months amount now fid sid t).1.fundings =
      st.fundings ++
        [{ id := fid, user_id := userId, amount := amount.getD 0,
           months_funded := months, start_date := now,
           end_date := setMonthAdd now months, status := "active",
           created_by := adminId }] ∧
    (fundUserSubscription st userId adminId months amount now fid sid t).1.subs =
      st.subs.map (fun r =>
        if r.id == sub.id then
          { r with
            end_date := some (setMonthAdd now months)
            funded_by_admin := true
            status := "active" }
        else r) := by
  simp [fundUserSubscription, hu, hsub]

/-- Witness for C7: the spec's concrete example.  A subscription ending
2024-01-01 funded on 2024-03-01 for 3 months ends 2024-06-01 (months are
0-based); the old end date is discarded, the vendor id and yearly plan
survive, and one audit row is created with amount 0. -/
theorem fundUserSubscription_extends_from_now_witness :
    (fundUserSubscription
      ⟨[⟨"u1", "inactive"⟩],
       [⟨"s1", "u1", some "sub_9", "active", "yearly", some ⟨2023, 0, 1⟩,
         some ⟨2024, 0, 1⟩, none, none, false, none, 0⟩], []⟩
      "u1" "admin" 3 none ⟨2024, 2, 1⟩ "f1" "s2" 5).2 = true ∧
    (fundUserSubscription
      ⟨[⟨"u1", "inactive"⟩],
       [⟨"s1", "u1", some "sub_9", "active", "yearly", some ⟨2023, 0, 1⟩,
         some ⟨2024, 0, 1⟩, none, none, false, none, 0⟩], []⟩
      "u1" "admin" 3 none ⟨2024, 2, 1⟩ "f1" "s2" 5).1.fundings =
      [⟨"f1", "u1", 0, 3, ⟨2024, 2, 1⟩, ⟨2024, 5, 1⟩, "active", "admin"⟩] ∧
    (fundUserSubscription
      ⟨[⟨"u1", "inactive"⟩],
       [⟨"s1", "u1", some "sub_9", "active", "yearly", some ⟨2023, 0, 1⟩,
         some ⟨2024, 0, 1⟩, none, none, false, none, 0⟩], []⟩
      "u1" "admin" 3 none ⟨2024, 2, 1⟩ "f1" "s2" 5).1.subs =
      [⟨"s1", "u1", some "sub_9", "active", "yearly", some ⟨2023, 0, 1⟩,
        some ⟨2024, 5, 1⟩, none, none, true, none, 0⟩] := by
  have h := fundUserSubscription_extends_from_now
    ⟨[⟨"u1", "inactive"⟩],
     [⟨"s1", "u1", some "sub_9", "active", "yearly", some ⟨2023, 0, 1⟩,
       some ⟨2024, 0, 1⟩, none, none, false, none, 0⟩], []⟩
    "u1" "admin" 3 none ⟨2024, 2, 1⟩ "f1" "s2" 5
    ⟨"u1", "inactive"⟩ rfl
    ⟨"s1", "u1", some "sub_9", "active", "yearly", some ⟨2023, 0, 1⟩,
      some ⟨2024, 0, 1⟩, none, none, false, none, 0⟩ rfl
  exact ⟨h.1, h.2.1, h.2.2⟩

/-- C8: funding a user with no subscription row (months 3, amount 9.99)
creates exactly one new monthly admin-funded active subscription row and
exactly one AdminFunding audit row with amount 9.99 and months_funded 3,
and sets the user's denormalized `subscription_status` to `active`. -/
theorem fundUserSubscription_creates_subscription
    (st : FundState) (userId adminId : String) (now : JDate)
    (fid sid : String) (t : Int)
    (u : UserRow) (hu : st.users.find? (fun v => v.id == userId) = some u)
    (hnone : findByUserIdLatest userId st.subs = none) :
    (fundUserSubscription st userId adminId 3 (some (9.99 : ℚ)) now fid sid t).2
      = true ∧
    (fundUserSubscription st userId adminId 3 (some (9.99 : ℚ)) now fid sid t).1.subs =
      st.subs ++
        [{ id := sid, user_id := userId, stripe_subscription_id := none,
           status := "active", plan_type := "monthly",
           start_date := some now, end_date := some (setMonthAdd now 3),
           current_period_start := none, current_period_end := none,
           funded_by_admin := true, cancelled_at := none, created_at := t }] ∧
    (fundUserSubscription st userId adminId 3 (some (9.99 : ℚ)) now fid sid
        t).1.fundings =
      st.fundings ++
        [{ id := fid, user_id := userId, amount := (9.99 : ℚ),
           months_funded := 3, start_date := now,
           end_date := setMonthAdd now 3, status := "active",
           created_by := adminId }] ∧
    (fundUserSubscription st userId adminId 3 (some (9.99 : ℚ)) now fid sid
        t).1.users =
      st.users.map (fun v =>
        if v.id == userId then { v with subscription_status := "active" } else v) := by
  simp [fundUserSubscription, hu, hnone]

/-- Witness for C8: funding a fresh user with an empty subscription table
creates the single monthly subscription, the single 9.99/3-month audit
row, and flips the user's status. -/
theorem fundUserSubscription_creates_subscription_witness :
    (fundUserSubscription ⟨[⟨"u1", "inactive"⟩], [], []⟩
      "u1" "admin" 3 (some (9.99 : ℚ)) ⟨2024, 2, 1⟩ "f1" "s1" 7).2 = true ∧
    (fundUserSubscription ⟨[⟨"u1", "inactive"⟩], [], []⟩
      "u1" "admin" 3 (some (9.99 : ℚ)) ⟨2024, 2, 1⟩ "f1" "s1" 7).1.subs =
      [⟨"s1", "u1", none, "active", "monthly", some ⟨2024, 2, 1⟩,
        some ⟨2024, 5, 1⟩, none, none, true, none, 7⟩] ∧
    (fundUserSubscription ⟨[⟨"u1", "inactive"⟩], [], []⟩
      "u1" "admin" 3 (some (9.99 : ℚ)) ⟨2024, 2, 1⟩ "f1" "s1" 7).1.fundings =
      [⟨"f1", "u1", (9.99 : ℚ), 3, ⟨2024, 2, 1⟩, ⟨2024, 5, 1⟩, "active", "admin"⟩] ∧
    (fundUserSubscription ⟨[⟨"u1", "inactive"⟩], [], []⟩
      "u1" "admin" 3 (some (9.99 : ℚ)) ⟨2024, 2, 1⟩ "f1" "s1" 7).1.users =
      [⟨"u1", "active"⟩] := by
  have h := fundUserSubscription_creates_subscription
    ⟨[⟨"u1", "inactive"⟩], [], []⟩ "u1" "admin" ⟨2024, 2, 1⟩ "f1" "s1" 7
    ⟨"u1", "inactive"⟩ rfl rfl
  exact ⟨h.1, h.2.1, h.2.2.1, h.2.2.2⟩

/-- C10: when the funded user already has a subscription, the funding
update is a frame-preserving edit of the subscriptions table: every
resulting row comes from an original row with the same primary key and
identical `user_id`, `stripe_subscription_id`, `plan_type`, `start_date`,
`current_period_start`, `current_period_end` and `cancelled_at` — only
`end_date`, `funded_by_admin` and `status` can differ, so a vendor-billed
subscription keeps its vendor id and plan interval across an admin
funding extension. -/
theorem fundUserSubscription_frame
    (st : FundState) (userId adminId : String) (months : Int)
    (amount : Option ℚ) (now : JDate) (fid sid : String) (t : Int)
    (u : UserRow) (hu : st.users.find? (fun v => v.id == userId) = some u)
    (sub : SubRow JDate) (hsub : findByUserIdLatest userId st.subs = some sub) :
    ∀ r' ∈ (fundUserSubscription st userId adminId months amount now fid sid t).1.subs,
      ∃ r ∈ st.subs,
        r'.id = r.id ∧
        r'.user_id = r.user_id ∧
        r'.stripe_subscription_id = r.stripe_subscription_id ∧
        r'.plan_type = r.plan_type ∧
        r'.start_date = r.start_date ∧
        r'.current_period_start = r.current_period_start ∧
        r'.current_period_end = r.current_period_end ∧
        r'.cancelled_at = r.cancelled_at := by
  intro r' hr'
  simp only [fundUserSubscription, hu, hsub] at hr'
  rcases List.mem_map.mp hr' with ⟨r, hr, rfl⟩
  refine ⟨r, hr, ?_⟩
  by_cases h : r.id == sub.id
  · simp [h]
  · simp [h]

/-- Witness for C10: in the concrete funded store, the updated row still
matches its original on every frame field. -/
theorem fundUserSubscription_frame_witness :
    ∃ r ∈ [(⟨"s1", "u1", some "sub_9", "active", "yearly", some ⟨2023, 0, 1⟩,
             some ⟨2024, 0, 1⟩, none, none, false, none, 0⟩ : SubRow JDate)],
      (⟨"s1", "u1", some "sub_9", "active", "yearly", some ⟨2023, 0, 1⟩,
        some ⟨2024, 5, 1⟩, none, none, true, none, 0⟩ : SubRow JDate).id = r.id ∧
      (⟨"s1", "u1", some "sub_9", "active", "yearly", some ⟨2023, 0, 1⟩,
        some ⟨2024, 5, 1⟩, none, none, true, none, 0⟩ : SubRow JDate).user_id
        = r.user_id ∧
      (⟨"s1", "u1", some "sub_9", "active", "yearly", some ⟨2023, 0, 1⟩,
        some ⟨2024, 5, 1⟩, none, none, true, none, 0⟩ :
          SubRow JDate).stripe_subscription_id = r.stripe_subscription_id ∧
      (⟨"s1", "u1", some "sub_9", "active", "yearly", some ⟨2023, 0, 1⟩,
        some ⟨2024, 5, 1⟩, none, none, true, none, 0⟩ : SubRow JDate).plan_type
        = r.plan_type ∧
      (⟨"s1", "u1", some "sub_9", "active", "yearly", some ⟨2023, 0, 1⟩,
        some ⟨2024, 5, 1⟩, none, none, true, none, 0⟩ : SubRow JDate).start_date
        = r.start_date ∧
      (⟨"s1", "u1", some "sub_9", "active", "yearly", some ⟨2023, 0, 1⟩,
        some ⟨2024, 5, 1⟩, none, none, true, none, 0⟩ :
          SubRow JDate).current_period_start = r.current_period_start ∧
      (⟨"s1", "u1", some "sub_9", "active", "yearly", some ⟨2023, 0, 1⟩,
        some ⟨2024, 5, 1⟩, none, none, true, none, 0⟩ :
          SubRow JDate).current_period_end = r.current_period_end ∧
      (⟨"s1", "u1", some "sub_9", "active", "yearly", some ⟨2023, 0, 1⟩,
        some ⟨2024, 5, 1⟩, none, none, true, none, 0⟩ : SubRow JDate).cancelled_at
        = r.cancelled_at :=
  fundUserSubscription_frame
    ⟨[⟨"u1", "inactive"⟩],
     [⟨"s1", "u1", some "sub_9", "active", "yearly", some ⟨2023, 0, 1⟩,
       some ⟨2024, 0, 1⟩, none, none, false, none, 0⟩], []⟩
    "u1" "admin" 3 none ⟨2024, 2, 1⟩ "f1" "s2" 5
    ⟨"u1", "inactive"⟩ rfl
    ⟨"s1", "u1", some "sub_9", "active", "yearly", some ⟨2023, 0, 1⟩,
      some ⟨2024, 0, 1⟩, none, none, false, none, 0⟩ rfl
    ⟨"s1", "u1", some "sub_9", "active", "yearly", some ⟨2023, 0, 1⟩,
      some ⟨2024, 5, 1⟩, none, none, true, none, 0⟩ (by decide)

end FilmMania
